import Mathlib

/-!
Shallow embedding of `2_gc-pipeline/serving/data.py` (Earth Engine data
utilities: query construction and the retrying HTTP patch fetcher), with
theorems checking the specification's claims against it.

Modelling conventions:
* Earth Engine expressions (`ee.Image`, `ee.ImageCollection`,
  `ee.FeatureCollection`, `ee.Geometry`) are declarative query builders:
  the Python code only composes server-side expressions, so they are
  embedded as syntax trees.  The two `.map(lambda ...)` calls use fixed
  lambdas from the source, embedded as dedicated constructors.
* The network is a parameter: an `Endpoint` maps a download request and a
  0-based attempt index to the HTTP response observed on that attempt.
* `google.api_core.retry.Retry(deadline=10*60)` is modelled as a loop over
  wall-clock time measured in abstract units: each attempt together with
  its backoff sleep consumes at least one unit plus the (arbitrary,
  possibly randomized) sleep duration `sleeps n`; the loop re-attempts only
  while the elapsed time stays within the deadline, and otherwise fails
  with a deadline-exceeded error.  The retry predicate is the library's
  `if_transient_error`, which matches the `TooManyRequests` exception the
  code raises on HTTP 429 and matches none of the other exceptions the
  code can raise (`requests.HTTPError`, decode failures).
* `requests.Response.raise_for_status` raises exactly for status codes in
  [400, 600), per the `requests` library.
* `np.load(..., allow_pickle=True)` is modelled on documented NumPy
  behaviour: a well-formed NPY payload is either a plain structured array
  or a pickled object payload; the latter loads only when pickling is
  allowed and raises otherwise.
-/

/-- Errors a call can surface, covering Python exceptions reachable in
`data.py`: the failed `assert`, the unbound local `cdl_image`, the
`google.api_core` 429 exception, `requests.HTTPError`, NumPy decode
failures, conversion type errors, and the retry utility's
deadline-exceeded `RetryError`. -/
inductive PyError where
  | assertionError
  | unboundLocal
  | tooManyRequests
  | httpError (status : Nat)
  | decodeError
  | typeError
  | retryDeadlineExceeded
deriving DecidableEq, Repr

/-- The retry predicate of `google.api_core.retry.Retry` used by the
`@retry.Retry(deadline=10 * 60)` decorator: its default
`if_transient_error` matches `TooManyRequests` (raised by the code on
HTTP 429) but none of the other exceptions this code raises. -/
def retryable : PyError → Bool
  | .tooManyRequests => true
  | _ => false

/-- `ee.FeatureCollection` expressions used by the code. -/
inductive EEFC where
  | featureCollection (table : String)
  | filterEq (fc : EEFC) (prop : String) (value : String)
deriving DecidableEq, Repr

/-- `ee.Geometry` expressions used by the code. -/
inductive EEGeometry where
  | point (lon lat : ℚ)
  | buffer (g : EEGeometry) (radius : ℚ) (maxError : Nat)
  | bounds (g : EEGeometry) (maxError : Nat)
  | fcFirstGeomCentroid (fc : EEFC)
deriving DecidableEq, Repr

/-- `ee.ImageCollection` expressions used by the code.  The three
`.map(...)` calls apply fixed lambdas from the source and are embedded as
dedicated constructors:
* `mapMaskRemap crop` is `lambda img: img.updateMask(img.remap([crop], [1], 0))`;
* `mapClipToCollectionFloat fc` is `lambda img: img.clipToCollection(fc).float()`;
* `mapMaskClouds` is `mask_sentinel2_clouds`, which masks QA60 bits 10 and 11. -/
inductive EEIC where
  | imageCollection (id : String)
  | filterBounds (c : EEIC) (fc : EEFC)
  | select (c : EEIC) (bands : String)
  | filterCalendarRange (c : EEIC) (lo hi : Int) (unit : String)
  | filterLt (c : EEIC) (prop : String) (bound : Nat)
  | mapMaskRemap (c : EEIC) (crop : Int)
  | mapClipToCollectionFloat (c : EEIC) (fc : EEFC)
  | mapMaskClouds (c : EEIC)
deriving DecidableEq, Repr

/-- `ee.Image` expressions used by the code.  `inputComposite` and
`labelComposite` stand for the descriptors produced by the (not included)
`get_input_image` / `get_label_image` builders. -/
inductive EEImage where
  | first (c : EEIC)
  | median (c : EEIC)
  | unmask (img : EEImage) (fill : Nat)
  | updateMask (img mask : EEImage)
  | eqConst (img : EEImage) (v : Nat)
  | toFloat (img : EEImage)
  | clip (img : EEImage) (fc : EEFC)
  | inputComposite (year : Int)
  | labelComposite (year : Int)
deriving DecidableEq, Repr

/-- A structured NumPy array as decoded from an NPY body: pixel grid
dimensions plus one named field per band, data laid out row by row, pixel
by pixel, with each pixel's field values in field order. -/
structure StructuredArray where
  rows : Nat
  cols : Nat
  fields : List String
  data : List (List (List Int))
deriving DecidableEq, Repr

/-- Shape of a structured patch array in the `(width, height, bands)`
reading used by the source docstring. -/
def StructuredArray.shape3 (a : StructuredArray) : Nat × Nat × Nat :=
  (a.rows, a.cols, a.fields.length)

/-- A value produced by `np.load`: either a plain structured numeric array
or (when pickling is allowed) a deserialized pickled object. -/
inductive NpValue where
  | structured (arr : StructuredArray)
  | objectArr (obj : String)
deriving DecidableEq, Repr

/-- An HTTP response body: a well-formed plain NPY payload, a well-formed
NPY payload containing a pickled object, or malformed bytes. -/
inductive Bytes where
  | npy (arr : StructuredArray)
  | npyPickled (obj : String)
  | malformed (raw : String)
deriving DecidableEq, Repr

/-- An HTTP response as seen by `requests.get`. -/
structure HttpResponse where
  status : Nat
  content : Bytes
deriving DecidableEq, Repr

/-- `np.load(io.BytesIO(content), allow_pickle=allowPickle)`, modelled on
documented NumPy behaviour: plain NPY payloads always load; pickled object
payloads load only when pickling is allowed ("Object arrays cannot be
loaded when allow_pickle=False"); malformed bytes fail to decode. -/
def npLoad (allowPickle : Bool) : Bytes → Except PyError NpValue
  | .npy arr => .ok (.structured arr)
  | .npyPickled obj => if allowPickle then .ok (.objectArr obj) else .error .decodeError
  | .malformed _ => .error .decodeError

/-- The argument of `image.getDownloadURL({...})` in `get_patch`. -/
structure DownloadRequest where
  image : EEImage
  region : EEGeometry
  dimensions : List Nat
  format : String
deriving DecidableEq, Repr

/-- The download request `get_patch` composes: region
`point.buffer(scale * patch_size / 2, 1).bounds(1)` (Python true division,
hence exact rational radius), pixel dimensions `[patch_size, patch_size]`,
format `"NPY"`. -/
def buildDownloadRequest (image : EEImage) (lonlat : ℚ × ℚ)
    (patch_size scale : Nat) : DownloadRequest :=
  { image := image
    region := EEGeometry.bounds
      (EEGeometry.buffer (EEGeometry.point lonlat.1 lonlat.2)
        (((scale * patch_size : Nat) : ℚ) / 2) 1) 1
    dimensions := [patch_size, patch_size]
    format := "NPY" }

/-- The network: the HTTP response observed for a given download request on
a given 0-based attempt. -/
def Endpoint : Type := DownloadRequest → Nat → HttpResponse

/-- One un-retried attempt of the body of `get_patch`, applied to the HTTP
response it received: HTTP 429 raises the (retryable) `TooManyRequests`
exception; `raise_for_status` raises `requests.HTTPError` exactly for
status codes in [400, 600); otherwise the body decodes with
`allow_pickle=True`. -/
def get_patch_once (resp : HttpResponse) : Except PyError NpValue :=
  if resp.status = 429 then .error .tooManyRequests
  else if 400 ≤ resp.status ∧ resp.status < 600 then .error (.httpError resp.status)
  else npLoad true resp.content

/-- The deadline of the `@retry.Retry(deadline=10 * 60)` decorator, in
seconds of wall-clock time. -/
def RETRY_DEADLINE : Nat := 10 * 60

/-- The retry loop of `google.api_core.retry.Retry`, over abstract
wall-clock time: attempt `n`; on success return the value together with
the number of attempts made; on a non-retryable exception re-raise it; on
a retryable exception re-attempt only if the elapsed time after the
attempt and its backoff sleep (at least one unit plus `sleeps n`) still
fits the deadline, and otherwise raise the deadline-exceeded `RetryError`.
`fuel` is an upper bound on the remaining iterations, kept structural;
callers pass `deadline + 1 - elapsed` or more, which the time accounting
never exhausts before the deadline check fires. -/
def retryAux (target : Nat → Except PyError NpValue) (sleeps : Nat → Nat)
    (deadline : Nat) : Nat → Nat → Nat → Except PyError NpValue × Nat
  | 0, n, _ => (.error .retryDeadlineExceeded, n)
  | fuel + 1, n, elapsed =>
    match target n with
    | .ok a => (.ok a, n + 1)
    | .error e =>
      if retryable e then
        if elapsed + 1 + sleeps n ≤ deadline then
          retryAux target sleeps deadline fuel (n + 1) (elapsed + 1 + sleeps n)
        else (.error .retryDeadlineExceeded, n + 1)
      else (.error e, n + 1)

/-- `get_patch`: composes the download request, issues the HTTP GET,
classifies the response and decodes the body, the whole body wrapped in
the 10-minute retry loop; `sleeps` is the (randomized) backoff schedule
delegated to the retry utility.  Returns the outcome paired with the
number of attempts made. -/
def get_patch (endpoint : Endpoint) (sleeps : Nat → Nat) (image : EEImage)
    (lonlat : ℚ × ℚ) (patch_size scale : Nat) : Except PyError NpValue × Nat :=
  retryAux
    (fun n => get_patch_once (endpoint (buildDownloadRequest image lonlat patch_size scale) n))
    sleeps RETRY_DEADLINE (RETRY_DEADLINE + 1) 0 0

/-- Total wall-clock units consumed by attempts `n, n+1, ..., n+N-1` when
each failed attempt plus its sleep costs one unit plus its backoff. -/
def elapsedFor (sleeps : Nat → Nat) (n : Nat) : Nat → Nat
  | 0 => 0
  | N + 1 => 1 + sleeps n + elapsedFor sleeps (n + 1) N

/-- Answers the remote engine gives to the two `.getInfo()` round-trips in
`get_input_image_ee`: the size of a filtered collection and the
coordinates of a centroid. -/
structure EEEnv where
  collectionSize : EEIC → Nat
  centroidCoords : EEGeometry → List ℚ

/-- The county boundary filter:
`ee.FeatureCollection("TIGER/2018/Counties").filter(ee.Filter.eq("NAME", county))`. -/
def countyGeom (county : String) : EEFC :=
  EEFC.filterEq (EEFC.featureCollection ("TIGER/2018/Counties")) ("NAME") county

/-- The cropland collection `cdl_county_masked`:
`ee.ImageCollection("USDA/NASS/CDL").filterBounds(county_geom)
.select("cropland").filter(ee.Filter.calendarRange(year, year, "year"))
.map(remap-mask).map(clip-and-float)`. -/
def cdlMasked (county : String) (crop : Int) (year : Int) : EEIC :=
  EEIC.mapClipToCollectionFloat
    (EEIC.mapMaskRemap
      (EEIC.filterCalendarRange
        (EEIC.select
          (EEIC.filterBounds (EEIC.imageCollection ("USDA/NASS/CDL")) (countyGeom county))
          ("cropland"))
        year year ("year"))
      crop)
    (countyGeom county)

/-- The Sentinel-2 collection before reduction:
`ee.ImageCollection("COPERNICUS/S2_HARMONIZED")
.filter(calendarRange(year, year, "year"))
.filter(calendarRange(month, month+1, "month")).filterBounds(county_geom)
.filter(lt("CLOUDY_PIXEL_PERCENTAGE", 30)).map(mask_sentinel2_clouds)
.select("B.*")`. -/
def s2Collection (county : String) (year : Int) (month : Int) : EEIC :=
  EEIC.select
    (EEIC.mapMaskClouds
      (EEIC.filterLt
        (EEIC.filterBounds
          (EEIC.filterCalendarRange
            (EEIC.filterCalendarRange
              (EEIC.imageCollection ("COPERNICUS/S2_HARMONIZED"))
              year year ("year"))
            month (month + 1) ("month"))
          (countyGeom county))
        ("CLOUDY_PIXEL_PERCENTAGE") 30))
    ("B.*")

/-- `get_input_image_ee(county, crop, year, month)`.  Returns the Python
call's outcome paired with the list of diagnostics it printed.

Control flow follows the source: the `assert` on `month` runs first; the
empty-collection check only prints `"No data found for the specified
parameters."` and leaves the local `cdl_image` unassigned (assignment
happens only in the `else` branch, so in Python the name is a function
local that is unbound in the empty case); the unused centroid `.getInfo()`
round-trip still happens; building `s2_img_unbounded` then references
`cdl_image`, which in the empty case raises `UnboundLocalError`; otherwise
the function returns the clipped image together with the name
`f"{county}_{year}_{month}-{month+1}"`. -/
def get_input_image_ee (env : EEEnv) (county : String) (crop : Int)
    (year : Int) (month : Int) : Except PyError (EEImage × String) × List String :=
  if 1 ≤ month ∧ month ≤ 11 then
    let county_geom := countyGeom county
    let cdl_county_masked := cdlMasked county crop year
    let isEmpty := env.collectionSize cdl_county_masked = 0
    let log := if isEmpty then ["No data found for the specified parameters."] else []
    let cdl_image_opt : Option EEImage :=
      if isEmpty then none else some (EEImage.first cdl_county_masked)
    let _coords := env.centroidCoords (EEGeometry.fcFirstGeomCentroid county_geom)
    match cdl_image_opt with
    | none => (.error .unboundLocal, log)
    | some cdl_image =>
      let s2_img_unbounded :=
        EEImage.toFloat
          (EEImage.updateMask
            (EEImage.unmask (EEImage.median (s2Collection county year month)) 1000)
            (EEImage.eqConst cdl_image 1))
      let s2_img := EEImage.clip s2_img_unbounded county_geom
      let img_name :=
        county ++ "_" ++ toString year ++ "_" ++ toString month ++ "-" ++ toString (month + 1)
      (.ok (s2_img, img_name), log)
  else (.error .assertionError, [])

/-- Modelled from the spec: `get_input_image` is not included in the
sources (only its caller `get_input_patch` is); per the spec it builds the
year-specific input composite descriptor. -/
def get_input_image (year : Int) : EEImage := EEImage.inputComposite year

/-- Modelled from the spec: `get_label_image` is not included in the
sources (only its caller `get_label_patch` is); per the spec it builds the
fixed year-2020 label composite descriptor. -/
def get_label_image : EEImage := EEImage.labelComposite 2020

/-- The plain (unstructured) NumPy array produced by
`structured_to_unstructured`: explicit shape, data layout unchanged. -/
structure NDArray where
  shape : List Nat
  data : List (List (List Int))
deriving DecidableEq, Repr

/-- `numpy.lib.recfunctions.structured_to_unstructured`: drops the field
names of a structured array, turning an `(rows, cols)` array with `K`
named fields into a plain `(rows, cols, K)` array with the data layout
(hence the band order) unchanged; applied to a non-structured (pickled
object) value it raises. -/
def structured_to_unstructured : NpValue → Except PyError NDArray
  | .structured arr => .ok ⟨[arr.rows, arr.cols, arr.fields.length], arr.data⟩
  | .objectArr _ => .error .typeError

/-- `SCALE = 100  # meters per pixel`. -/
def SCALE : Nat := 100

/-- `get_input_patch(year, lonlat, patch_size)`: obtains the input image
descriptor for the year, delegates to `get_patch` at the module-level
`SCALE`, and converts the structured patch with
`structured_to_unstructured`; exceptions propagate. -/
def get_input_patch (endpoint : Endpoint) (sleeps : Nat → Nat) (year : Int)
    (lonlat : ℚ × ℚ) (patch_size : Nat) : Except PyError NDArray :=
  match (get_patch endpoint sleeps (get_input_image year) lonlat patch_size SCALE).1 with
  | .error e => .error e
  | .ok patch => structured_to_unstructured patch

/-- `get_label_patch(lonlat, patch_size)`: obtains the label image
descriptor, delegates to `get_patch` at the module-level `SCALE`, and
converts the structured patch with `structured_to_unstructured`;
exceptions propagate. -/
def get_label_patch (endpoint : Endpoint) (sleeps : Nat → Nat)
    (lonlat : ℚ × ℚ) (patch_size : Nat) : Except PyError NDArray :=
  match (get_patch endpoint sleeps get_label_image lonlat patch_size SCALE).1 with
  | .error e => .error e
  | .ok patch => structured_to_unstructured patch

/-- An axis-aligned planar rectangle, used to interpret the region
geometry `get_patch` requests. -/
structure Rect where
  xmin : ℚ
  xmax : ℚ
  ymin : ℚ
  ymax : ℚ
deriving DecidableEq, Repr

/-- Planar interpretation of the geometry expressions `get_patch` builds:
a point is a degenerate rectangle, `buffer r` grows a rectangle by `r` on
every side, and `bounds` returns the bounding rectangle (already a
rectangle here).  This idealizes Earth Engine's metric buffering on a flat
plane, enough to read off side lengths and centers. -/
def interpRegion : EEGeometry → Option Rect
  | .point lon lat => some ⟨lon, lon, lat, lat⟩
  | .buffer g r _ =>
    (interpRegion g).map (fun R => ⟨R.xmin - r, R.xmax + r, R.ymin - r, R.ymax + r⟩)
  | .bounds g _ => interpRegion g
  | .fcFirstGeomCentroid _ => none

theorem retryable_false_of_ne (e : PyError) (h : e ≠ PyError.tooManyRequests) :
    retryable e = false := by
  cases e <;> simp_all [retryable]

theorem get_patch_once_429 (resp : HttpResponse) (h : resp.status = 429) :
    get_patch_once resp = .error .tooManyRequests := by
  simp [get_patch_once, h]

theorem get_patch_once_success (resp : HttpResponse) (h : resp.status = 200)
    (arr : StructuredArray) (hc : resp.content = Bytes.npy arr) :
    get_patch_once resp = .ok (NpValue.structured arr) := by
  simp [get_patch_once, h, hc, npLoad]

theorem retryAux_first_ok (target : Nat → Except PyError NpValue)
    (sleeps : Nat → Nat) (deadline : Nat) (a : NpValue) (fuel n elapsed : Nat)
    (h : target n = .ok a) (hf : 0 < fuel) :
    retryAux target sleeps deadline fuel n elapsed = (.ok a, n + 1) := by
  cases fuel with
  | zero => omega
  | succ f => simp [retryAux, h]

theorem retryAux_first_fatal (target : Nat → Except PyError NpValue)
    (sleeps : Nat → Nat) (deadline : Nat) (e : PyError) (fuel n elapsed : Nat)
    (he : target n = .error e) (hnr : retryable e = false) (hf : 0 < fuel) :
    retryAux target sleeps deadline fuel n elapsed = (.error e, n + 1) := by
  cases fuel with
  | zero => omega
  | succ f => simp [retryAux, he, hnr]

theorem retryAux_429_then_ok (target : Nat → Except PyError NpValue)
    (sleeps : Nat → Nat) (deadline : Nat) (a : NpValue) :
    ∀ (N n elapsed fuel : Nat),
      (∀ k, k < N → target (n + k) = .error .tooManyRequests) →
      target (n + N) = .ok a →
      elapsed + elapsedFor sleeps n N ≤ deadline →
      deadline < fuel + elapsed →
      retryAux target sleeps deadline fuel n elapsed = (.ok a, n + N + 1) := by
  intro N
  induction N with
  | zero =>
    intro n elapsed fuel _ hok hbudget hfuel
    simp only [elapsedFor, Nat.add_zero] at hbudget hok
    have hf : 0 < fuel := by omega
    rw [retryAux_first_ok target sleeps deadline a fuel n elapsed hok hf]
  | succ N ih =>
    intro n elapsed fuel h429 hok hbudget hfuel
    have hstep : elapsedFor sleeps n (N + 1) = 1 + sleeps n + elapsedFor sleeps (n + 1) N := rfl
    cases fuel with
    | zero =>
      exfalso
      have : elapsed ≤ deadline := by omega
      omega
    | succ f =>
      have h0 : target n = .error .tooManyRequests := by
        have := h429 0 (by omega)
        simpa using this
      have hcond : elapsed + 1 + sleeps n ≤ deadline := by omega
      have hrec := ih (n + 1) (elapsed + 1 + sleeps n) f
        (fun k hk => by
          have := h429 (k + 1) (by omega)
          rwa [show n + (k + 1) = n + 1 + k by omega] at this)
        (by rwa [show n + 1 + N = n + (N + 1) by omega])
        (by omega)
        (by omega)
      have : retryAux target sleeps deadline (f + 1) n elapsed =
          retryAux target sleeps deadline f (n + 1) (elapsed + 1 + sleeps n) := by
        simp [retryAux, h0, retryable, hcond]
      rw [this, hrec]
      congr 1
      omega

theorem retryAux_always_429 (target : Nat → Except PyError NpValue)
    (sleeps : Nat → Nat) (deadline : Nat)
    (h : ∀ k, target k = .error .tooManyRequests) :
    ∀ (fuel n elapsed : Nat), ∃ m,
      retryAux target sleeps deadline fuel n elapsed =
        (.error .retryDeadlineExceeded, m) := by
  intro fuel
  induction fuel with
  | zero => intro n elapsed; exact ⟨n, rfl⟩
  | succ f ih =>
    intro n elapsed
    by_cases hcond : elapsed + 1 + sleeps n ≤ deadline
    · obtain ⟨m, hm⟩ := ih (n + 1) (elapsed + 1 + sleeps n)
      exact ⟨m, by simp [retryAux, h n, retryable, hcond, hm]⟩
    · exact ⟨n + 1, by simp [retryAux, h n, retryable, hcond]⟩

/-- C1: `get_patch` wraps the whole fetch (request composition, HTTP GET,
classification, decode) in a retry loop bounded by the 10-minute
wall-clock deadline in which only HTTP 429 is retried: (1) an endpoint
answering 429 on the first `N` attempts and success on attempt `N + 1`
(with a decodable body, and the `N` backoffs fitting the deadline) yields
the decoded payload after exactly `N + 1` attempts; (2) an endpoint always
answering 429 ends in a deadline-exceeded error; (3) any non-429 failure
of the body propagates after exactly one attempt. -/
theorem get_patch_retry_policy (endpoint : Endpoint) (sleeps : Nat → Nat)
    (image : EEImage) (lonlat : ℚ × ℚ) (patch_size scale : Nat) :
    (∀ (N : Nat) (arr : StructuredArray),
      (∀ k, k < N →
        (endpoint (buildDownloadRequest image lonlat patch_size scale) k).status = 429) →
      (endpoint (buildDownloadRequest image lonlat patch_size scale) N).status = 200 →
      (endpoint (buildDownloadRequest image lonlat patch_size scale) N).content =
        Bytes.npy arr →
      elapsedFor sleeps 0 N ≤ RETRY_DEADLINE →
      get_patch endpoint sleeps image lonlat patch_size scale =
        (.ok (NpValue.structured arr), N + 1)) ∧
    ((∀ k,
        (endpoint (buildDownloadRequest image lonlat patch_size scale) k).status = 429) →
      ∃ m, get_patch endpoint sleeps image lonlat patch_size scale =
        (.error .retryDeadlineExceeded, m)) ∧
    (∀ (e : PyError),
      get_patch_once (endpoint (buildDownloadRequest image lonlat patch_size scale) 0) =
        .error e →
      e ≠ PyError.tooManyRequests →
      get_patch endpoint sleeps image lonlat patch_size scale = (.error e, 1)) := by
  refine ⟨?_, ?_, ?_⟩
  · intro N arr h429 hok hbody hbudget
    unfold get_patch
    have := retryAux_429_then_ok
      (fun n => get_patch_once
        (endpoint (buildDownloadRequest image lonlat patch_size scale) n))
      sleeps RETRY_DEADLINE (NpValue.structured arr) N 0 0 (RETRY_DEADLINE + 1)
      (fun k hk => by
        simpa using get_patch_once_429 _ (by simpa using h429 k hk))
      (by simpa using get_patch_once_success _ (by simpa using hok) arr (by simpa using hbody))
      (by simpa using hbudget)
      (by omega)
    simpa using this
  · intro h429
    unfold get_patch
    exact retryAux_always_429 _ sleeps RETRY_DEADLINE
      (fun k => get_patch_once_429 _ (h429 k)) (RETRY_DEADLINE + 1) 0 0
  · intro e he hne
    unfold get_patch
    exact retryAux_first_fatal _ sleeps RETRY_DEADLINE e (RETRY_DEADLINE + 1) 0 0 he
      (retryable_false_of_ne e hne) (by omega)

/-- A concrete patch payload used by the witnesses. -/
def arrW : StructuredArray := ⟨2, 2, ["B2", "B3"], [[[1, 2], [3, 4]], [[5, 6], [7, 8]]]⟩

/-- Endpoint answering 429 twice, then success. -/
def epTwo429 : Endpoint := fun _ k =>
  if k < 2 then ⟨429, Bytes.malformed ("x")⟩ else ⟨200, Bytes.npy arrW⟩

/-- Endpoint that always answers 429. -/
def epAlways429 : Endpoint := fun _ _ => ⟨429, Bytes.malformed ("x")⟩

/-- Endpoint that always answers HTTP 500. -/
def epAlways500 : Endpoint := fun _ _ => ⟨500, Bytes.malformed ("x")⟩

/-- A one-second backoff schedule. -/
def slW : Nat → Nat := fun _ => 1

theorem get_patch_retry_policy_witness :
    get_patch epTwo429 slW (EEImage.labelComposite 2020) (0, 0) 4 100 =
      (.ok (NpValue.structured arrW), 3) ∧
    (∃ m, get_patch epAlways429 slW (EEImage.labelComposite 2020) (0, 0) 4 100 =
      (.error .retryDeadlineExceeded, m)) ∧
    get_patch epAlways500 slW (EEImage.labelComposite 2020) (0, 0) 4 100 =
      (.error (.httpError 500), 1) :=
  ⟨(get_patch_retry_policy epTwo429 slW (EEImage.labelComposite 2020) (0, 0) 4 100).1
      2 arrW
      (fun k hk => by interval_cases k <;> rfl)
      rfl rfl (by decide),
   (get_patch_retry_policy epAlways429 slW (EEImage.labelComposite 2020) (0, 0) 4 100).2.1
      (fun _ => rfl),
   (get_patch_retry_policy epAlways500 slW (EEImage.labelComposite 2020) (0, 0) 4 100).2.2
      (PyError.httpError 500) rfl (by decide)⟩

/-- C2: classification of every HTTP response `get_patch` receives: a 429
status raises the retryable `TooManyRequests` error; any other error
status (those `raise_for_status` flags, i.e. 4xx/5xx) raises a
non-retryable error carrying the HTTP status — and an endpoint answering
such a status on the first attempt makes `get_patch` fail after exactly
one attempt, without retrying; on a success status the body proceeds to
decode and return the payload. -/
theorem get_patch_response_classification (resp : HttpResponse) :
    (resp.status = 429 →
      get_patch_once resp = .error .tooManyRequests ∧
      retryable .tooManyRequests = true) ∧
    (resp.status ≠ 429 → 400 ≤ resp.status → resp.status < 600 →
      get_patch_once resp = .error (.httpError resp.status) ∧
      retryable (.httpError resp.status) = false ∧
      (∀ (endpoint : Endpoint) (sleeps : Nat → Nat) (image : EEImage)
          (lonlat : ℚ × ℚ) (patch_size scale : Nat),
        endpoint (buildDownloadRequest image lonlat patch_size scale) 0 = resp →
        get_patch endpoint sleeps image lonlat patch_size scale =
          (.error (.httpError resp.status), 1))) ∧
    (¬ (400 ≤ resp.status ∧ resp.status < 600) →
      get_patch_once resp = npLoad true resp.content) := by
  refine ⟨?_, ?_, ?_⟩
  · intro h429
    exact ⟨get_patch_once_429 resp h429, rfl⟩
  · intro hne hlo hhi
    have honce : get_patch_once resp = .error (.httpError resp.status) := by
      simp [get_patch_once, hne, hlo, hhi]
    refine ⟨honce, rfl, ?_⟩
    intro endpoint sleeps image lonlat patch_size scale hep
    unfold get_patch
    exact retryAux_first_fatal _ sleeps RETRY_DEADLINE _ (RETRY_DEADLINE + 1) 0 0
      (by rw [hep]; exact honce) rfl (by omega)
  · intro hnoerr
    have h429 : resp.status ≠ 429 := by
      intro h
      exact hnoerr (by omega)
    simp [get_patch_once, h429, hnoerr]

theorem get_patch_response_classification_witness :
    (get_patch_once ⟨429, Bytes.malformed ("x")⟩ = .error .tooManyRequests ∧
      retryable .tooManyRequests = true) ∧
    (get_patch_once ⟨500, Bytes.malformed ("x")⟩ = .error (.httpError 500) ∧
      retryable (.httpError 500) = false ∧
      get_patch epAlways500 slW (EEImage.labelComposite 2020) (0, 0) 4 100 =
        (.error (.httpError 500), 1)) ∧
    get_patch_once ⟨200, Bytes.npy arrW⟩ = npLoad true (Bytes.npy arrW) :=
  ⟨(get_patch_response_classification ⟨429, Bytes.malformed ("x")⟩).1 rfl,
   (let h := (get_patch_response_classification ⟨500, Bytes.malformed ("x")⟩).2.1
      (by decide) (by decide) (by decide)
    ⟨h.1, h.2.1,
     h.2.2 epAlways500 slW (EEImage.labelComposite 2020) (0, 0) 4 100 rfl⟩),
   (get_patch_response_classification ⟨200, Bytes.npy arrW⟩).2.2 (by decide)⟩

/-- Endpoint that immediately succeeds with the payload `arrW`. -/
def epOkW : Endpoint := fun _ _ => ⟨200, Bytes.npy arrW⟩

/-- C5: on an HTTP success response whose body is a well-formed NPY
payload with `K` bands (and the pixel dimensions the request asked for),
`get_patch` decodes it into the structured array on the first attempt, and
that array's `(width, height, bands)` shape is
`(patch_size, patch_size, K)`. -/
theorem get_patch_decode_shape (endpoint : Endpoint) (sleeps : Nat → Nat)
    (image : EEImage) (lonlat : ℚ × ℚ) (patch_size scale K : Nat)
    (arr : StructuredArray)
    (hs : (endpoint (buildDownloadRequest image lonlat patch_size scale) 0).status = 200)
    (hb : (endpoint (buildDownloadRequest image lonlat patch_size scale) 0).content =
      Bytes.npy arr)
    (hr : arr.rows = patch_size) (hc : arr.cols = patch_size)
    (hk : arr.fields.length = K) :
    get_patch endpoint sleeps image lonlat patch_size scale =
      (.ok (NpValue.structured arr), 1) ∧
    arr.shape3 = (patch_size, patch_size, K) := by
  constructor
  · unfold get_patch
    exact retryAux_first_ok _ sleeps RETRY_DEADLINE _ (RETRY_DEADLINE + 1) 0 0
      (get_patch_once_success _ hs arr hb) (by omega)
  · simp [StructuredArray.shape3, hr, hc, hk]

theorem get_patch_decode_shape_witness :
    get_patch epOkW slW (EEImage.labelComposite 2020) (0, 0) 2 100 =
      (.ok (NpValue.structured arrW), 1) ∧
    arrW.shape3 = (2, 2, 2) :=
  get_patch_decode_shape epOkW slW (EEImage.labelComposite 2020) (0, 0) 2 100 2 arrW
    rfl rfl rfl rfl rfl

/-- Endpoint that immediately succeeds with a pickled-object NPY body. -/
def epPickled : Endpoint := fun _ _ => ⟨200, Bytes.npyPickled ("payload")⟩

/-- C10: `get_patch` decodes with `allow_pickle=True`, so a well-formed
NPY body holding a pickled object is returned as a pickled-object value —
not a plain numeric structured array, which the same payload would be
rejected as (`decodeError`) were pickling disabled. -/
theorem get_patch_allow_pickle (endpoint : Endpoint) (sleeps : Nat → Nat)
    (image : EEImage) (lonlat : ℚ × ℚ) (patch_size scale : Nat) (obj : String)
    (hs : (endpoint (buildDownloadRequest image lonlat patch_size scale) 0).status = 200)
    (hb : (endpoint (buildDownloadRequest image lonlat patch_size scale) 0).content =
      Bytes.npyPickled obj) :
    get_patch endpoint sleeps image lonlat patch_size scale =
      (.ok (NpValue.objectArr obj), 1) ∧
    npLoad false (Bytes.npyPickled obj) = .error .decodeError ∧
    (∀ arr : StructuredArray, NpValue.objectArr obj ≠ NpValue.structured arr) := by
  refine ⟨?_, rfl, fun arr => by simp⟩
  unfold get_patch
  refine retryAux_first_ok _ sleeps RETRY_DEADLINE _ (RETRY_DEADLINE + 1) 0 0 ?_ (by omega)
  simp [get_patch_once, hs, hb, npLoad]

theorem get_patch_allow_pickle_witness :
    get_patch epPickled slW (EEImage.labelComposite 2020) (0, 0) 2 100 =
      (.ok (NpValue.objectArr ("payload")), 1) ∧
    npLoad false (Bytes.npyPickled ("payload")) = .error .decodeError ∧
    (∀ arr : StructuredArray, NpValue.objectArr ("payload") ≠ NpValue.structured arr) :=
  get_patch_allow_pickle epPickled slW (EEImage.labelComposite 2020) (0, 0) 2 100
    ("payload") rfl rfl

/-- C7: the download request `get_patch` composes for every image, point,
patch size, and scale: the region is the point buffered by
`scale * patch_size / 2` and then bounded (max error 1 in both steps), the
pixel dimensions are `[patch_size, patch_size]`, and the format is NPY;
planar interpretation of that region is a square of side
`scale * patch_size` centered on the point. -/
theorem get_patch_request_composition (image : EEImage) (lonlat : ℚ × ℚ)
    (patch_size scale : Nat) :
    (buildDownloadRequest image lonlat patch_size scale).image = image ∧
    (buildDownloadRequest image lonlat patch_size scale).region =
      EEGeometry.bounds
        (EEGeometry.buffer (EEGeometry.point lonlat.1 lonlat.2)
          (((scale * patch_size : Nat) : ℚ) / 2) 1) 1 ∧
    (buildDownloadRequest image lonlat patch_size scale).dimensions =
      [patch_size, patch_size] ∧
    (buildDownloadRequest image lonlat patch_size scale).format = "NPY" ∧
    ∃ R : Rect,
      interpRegion (buildDownloadRequest image lonlat patch_size scale).region = some R ∧
      R.xmax - R.xmin = ((scale * patch_size : Nat) : ℚ) ∧
      R.ymax - R.ymin = ((scale * patch_size : Nat) : ℚ) ∧
      R.xmin + R.xmax = 2 * lonlat.1 ∧
      R.ymin + R.ymax = 2 * lonlat.2 := by
  refine ⟨rfl, rfl, rfl, rfl, ⟨_, rfl, ?_, ?_, ?_, ?_⟩⟩ <;> ring

/-- A remote engine on which every filtered collection is empty. -/
def envEmpty : EEEnv := ⟨fun _ => 0, fun _ => []⟩

/-- A remote engine on which every filtered collection has one element. -/
def envOne : EEEnv := ⟨fun _ => 1, fun _ => []⟩

/-- C3 counterexample: with an empty cropland collection,
`get_input_image_ee` does NOT continue to completion and return an image —
after emitting the diagnostic it fails, because the local `cdl_image` is
only assigned in the non-empty branch and is referenced unassigned when
the Sentinel-2 composite is masked (Python `UnboundLocalError`). -/
theorem empty_cropland_does_fail :
    (get_input_image_ee envEmpty ("Alameda") 75 2020 5).1 =
      .error .unboundLocal ∧
    (get_input_image_ee envEmpty ("Alameda") 75 2020 5).2 =
      ["No data found for the specified parameters."] := by
  constructor <;> rfl

/-- C3 (amended): when the filtered cropland collection for the given
county/year/crop is empty, `get_input_image_ee` emits the diagnostic
message and continues past the check, but the call then fails with an
unbound-local-variable error when it references the never-assigned
cropland image while building the Sentinel-2 composite; no image is
returned. -/
theorem empty_cropland_unbound_local (env : EEEnv) (county : String)
    (crop year month : Int) (h1 : 1 ≤ month) (h11 : month ≤ 11)
    (hempty : env.collectionSize (cdlMasked county crop year) = 0) :
    get_input_image_ee env county crop year month =
      (.error .unboundLocal, ["No data found for the specified parameters."]) := by
  unfold get_input_image_ee
  rw [if_pos ⟨h1, h11⟩]
  simp [hempty]

theorem empty_cropland_unbound_local_witness :
    get_input_image_ee envEmpty ("Alameda") 75 2020 5 =
      (.error .unboundLocal, ["No data found for the specified parameters."]) :=
  empty_cropland_unbound_local envEmpty ("Alameda") 75 2020 5
    (by decide) (by decide) rfl

/-- C6: for every month in [1, 11] the month-precondition assertion of
`get_input_image_ee` does not fire (whatever the engine answers), and for
every month outside [1, 11] the call fails with the assertion error
immediately, before any other work (no diagnostic is emitted and the
result does not depend on the engine). -/
theorem month_precondition (env : EEEnv) (county : String)
    (crop year month : Int) :
    ((1 ≤ month ∧ month ≤ 11) →
      (get_input_image_ee env county crop year month).1 ≠
        .error .assertionError) ∧
    (¬ (1 ≤ month ∧ month ≤ 11) →
      get_input_image_ee env county crop year month =
        (.error .assertionError, [])) := by
  constructor
  · rintro ⟨h1, h11⟩
    unfold get_input_image_ee
    rw [if_pos ⟨h1, h11⟩]
    by_cases hempty : env.collectionSize (cdlMasked county crop year) = 0 <;>
      simp [hempty]
  · intro h
    unfold get_input_image_ee
    rw [if_neg h]

theorem month_precondition_witness :
    ((get_input_image_ee envOne ("Alameda") 75 2020 5).1 ≠
      .error .assertionError) ∧
    (get_input_image_ee envOne ("Alameda") 75 2020 12 =
      (.error .assertionError, [])) :=
  ⟨(month_precondition envOne ("Alameda") 75 2020 5).1 (by decide),
   (month_precondition envOne ("Alameda") 75 2020 12).2 (by decide)⟩

/-- C8: for every county, crop, year, and month in [1, 11] with a
non-empty cropland collection, `get_input_image_ee` returns a pair of an
image descriptor and a generated name string, the name being
`f"{county}_{year}_{month}-{month+1}"`. -/
theorem image_name_format (env : EEEnv) (county : String)
    (crop year month : Int) (h1 : 1 ≤ month) (h11 : month ≤ 11)
    (hne : env.collectionSize (cdlMasked county crop year) ≠ 0) :
    ∃ img : EEImage,
      get_input_image_ee env county crop year month =
        (.ok (img, county ++ "_" ++ toString year ++ "_" ++ toString month ++
          "-" ++ toString (month + 1)), []) := by
  refine ⟨EEImage.clip
    (EEImage.toFloat
      (EEImage.updateMask
        (EEImage.unmask (EEImage.median (s2Collection county year month)) 1000)
        (EEImage.eqConst (EEImage.first (cdlMasked county crop year)) 1)))
    (countyGeom county), ?_⟩
  unfold get_input_image_ee
  rw [if_pos ⟨h1, h11⟩]
  simp [hne]

theorem image_name_format_witness :
    ∃ img : EEImage,
      get_input_image_ee envOne ("Alameda") 75 2021 3 =
        (.ok (img, "Alameda_2021_3-4"), []) :=
  image_name_format envOne ("Alameda") 75 2021 3 (by decide) (by decide)
    (by decide)

theorem get_patch_first_success (endpoint : Endpoint) (sleeps : Nat → Nat)
    (image : EEImage) (lonlat : ℚ × ℚ) (patch_size scale : Nat)
    (arr : StructuredArray)
    (hs : (endpoint (buildDownloadRequest image lonlat patch_size scale) 0).status = 200)
    (hb : (endpoint (buildDownloadRequest image lonlat patch_size scale) 0).content =
      Bytes.npy arr) :
    get_patch endpoint sleeps image lonlat patch_size scale =
      (.ok (NpValue.structured arr), 1) := by
  unfold get_patch
  exact retryAux_first_ok _ sleeps RETRY_DEADLINE _ (RETRY_DEADLINE + 1) 0 0
    (get_patch_once_success _ hs arr hb) (by omega)

/-- The 13 Sentinel-2 spectral bands whose names match the `B.*` filter. -/
def s2SpectralBands : List String :=
  ["B1", "B2", "B3", "B4", "B5", "B6", "B7", "B8", "B8A", "B9", "B10", "B11", "B12"]

/-- A stub 32-pixel patch payload carrying the `B.*` bands. -/
def arr32 : StructuredArray := ⟨32, 32, s2SpectralBands, []⟩

/-- Stub endpoint that immediately succeeds with `arr32`. -/
def epStub32 : Endpoint := fun _ _ => ⟨200, Bytes.npy arr32⟩

/-- C4: `get_input_patch` and `get_label_patch` obtain the year-specific
input composite (resp. the fixed year-2020 label composite), delegate to
`get_patch`, and convert the structured pixel record to a plain array of
shape `(rows, cols, bands)` with the data layout (band order) unchanged;
in particular `get_input_patch(year=2020, lonlat=(-122.27, 37.80),
patch_size=32)` against a stub service whose payload is a 32-by-32 patch
with `B` bands returns an array of shape `(32, 32, B)`. -/
theorem patch_wrappers_delegate (endpoint : Endpoint) (sleeps : Nat → Nat) :
    (∀ (year : Int) (lonlat : ℚ × ℚ) (patch_size : Nat) (arr : StructuredArray),
      (endpoint (buildDownloadRequest (get_input_image year) lonlat patch_size SCALE)
        0).status = 200 →
      (endpoint (buildDownloadRequest (get_input_image year) lonlat patch_size SCALE)
        0).content = Bytes.npy arr →
      get_input_patch endpoint sleeps year lonlat patch_size =
        .ok ⟨[arr.rows, arr.cols, arr.fields.length], arr.data⟩) ∧
    (∀ (lonlat : ℚ × ℚ) (patch_size : Nat) (arr : StructuredArray),
      (endpoint (buildDownloadRequest get_label_image lonlat patch_size SCALE)
        0).status = 200 →
      (endpoint (buildDownloadRequest get_label_image lonlat patch_size SCALE)
        0).content = Bytes.npy arr →
      get_label_patch endpoint sleeps lonlat patch_size =
        .ok ⟨[arr.rows, arr.cols, arr.fields.length], arr.data⟩) ∧
    (∀ arr : StructuredArray,
      (endpoint (buildDownloadRequest (get_input_image 2020)
        ((-122.27 : ℚ), (37.80 : ℚ)) 32 SCALE) 0).status = 200 →
      (endpoint (buildDownloadRequest (get_input_image 2020)
        ((-122.27 : ℚ), (37.80 : ℚ)) 32 SCALE) 0).content = Bytes.npy arr →
      arr.rows = 32 → arr.cols = 32 →
      get_input_patch endpoint sleeps 2020 ((-122.27 : ℚ), (37.80 : ℚ)) 32 =
        .ok ⟨[32, 32, arr.fields.length], arr.data⟩) := by
  have hin : ∀ (year : Int) (lonlat : ℚ × ℚ) (patch_size : Nat) (arr : StructuredArray),
      (endpoint (buildDownloadRequest (get_input_image year) lonlat patch_size SCALE)
        0).status = 200 →
      (endpoint (buildDownloadRequest (get_input_image year) lonlat patch_size SCALE)
        0).content = Bytes.npy arr →
      get_input_patch endpoint sleeps year lonlat patch_size =
        .ok ⟨[arr.rows, arr.cols, arr.fields.length], arr.data⟩ := by
    intro year lonlat patch_size arr hs hb
    unfold get_input_patch
    rw [get_patch_first_success endpoint sleeps (get_input_image year) lonlat
      patch_size SCALE arr hs hb]
    rfl
  refine ⟨hin, ?_, ?_⟩
  · intro lonlat patch_size arr hs hb
    unfold get_label_patch
    rw [get_patch_first_success endpoint sleeps get_label_image lonlat
      patch_size SCALE arr hs hb]
    rfl
  · intro arr hs hb hr hc
    have := hin 2020 ((-122.27 : ℚ), (37.80 : ℚ)) 32 arr hs hb
    rw [hr, hc] at this
    exact this

theorem patch_wrappers_delegate_witness :
    get_input_patch epStub32 slW 2020 ((-122.27 : ℚ), (37.80 : ℚ)) 32 =
      .ok ⟨[32, 32, 13], arr32.data⟩ :=
  (patch_wrappers_delegate epStub32 slW).2.2 arr32 rfl rfl rfl rfl

/-- C9: the public wrappers fetch at the fixed module-level scale:
`SCALE = 100`, and the outcome of `get_input_patch` / `get_label_patch`
depends on the network only through its answers to the download request
built at scale 100 — two endpoints that agree on that request (at every
attempt) yield identical results, so no caller-supplied scale exists. -/
theorem wrappers_fixed_scale :
    SCALE = 100 ∧
    (∀ (ep ep2 : Endpoint) (sleeps : Nat → Nat) (year : Int)
        (lonlat : ℚ × ℚ) (patch_size : Nat),
      (∀ n, ep2 (buildDownloadRequest (get_input_image year) lonlat patch_size 100) n =
            ep (buildDownloadRequest (get_input_image year) lonlat patch_size 100) n) →
      get_input_patch ep2 sleeps year lonlat patch_size =
        get_input_patch ep sleeps year lonlat patch_size) ∧
    (∀ (ep ep2 : Endpoint) (sleeps : Nat → Nat) (lonlat : ℚ × ℚ) (patch_size : Nat),
      (∀ n, ep2 (buildDownloadRequest get_label_image lonlat patch_size 100) n =
            ep (buildDownloadRequest get_label_image lonlat patch_size 100) n) →
      get_label_patch ep2 sleeps lonlat patch_size =
        get_label_patch ep sleeps lonlat patch_size) := by
  refine ⟨rfl, ?_, ?_⟩
  · intro ep ep2 sleeps year lonlat patch_size h
    unfold get_input_patch get_patch
    have ht : (fun n => get_patch_once
          (ep2 (buildDownloadRequest (get_input_image year) lonlat patch_size SCALE) n)) =
        (fun n => get_patch_once
          (ep (buildDownloadRequest (get_input_image year) lonlat patch_size SCALE) n)) := by
      funext n
      rw [show (SCALE : Nat) = 100 from rfl, h n]
    rw [ht]
  · intro ep ep2 sleeps lonlat patch_size h
    unfold get_label_patch get_patch
    have ht : (fun n => get_patch_once
          (ep2 (buildDownloadRequest get_label_image lonlat patch_size SCALE) n)) =
        (fun n => get_patch_once
          (ep (buildDownloadRequest get_label_image lonlat patch_size SCALE) n)) := by
      funext n
      rw [show (SCALE : Nat) = 100 from rfl, h n]
    rw [ht]

/-- An endpoint agreeing with `epStub32` exactly on 32-pixel requests. -/
def epStub32Elsewhere : Endpoint := fun r n =>
  if r.dimensions = [32, 32] then epStub32 r n else ⟨500, Bytes.malformed ("x")⟩

theorem wrappers_fixed_scale_witness :
    SCALE = 100 ∧
    get_input_patch epStub32Elsewhere slW 2020 ((-122.27 : ℚ), (37.80 : ℚ)) 32 =
      get_input_patch epStub32 slW 2020 ((-122.27 : ℚ), (37.80 : ℚ)) 32 ∧
    get_label_patch epStub32Elsewhere slW ((-122.27 : ℚ), (37.80 : ℚ)) 32 =
      get_label_patch epStub32 slW ((-122.27 : ℚ), (37.80 : ℚ)) 32 :=
  ⟨wrappers_fixed_scale.1,
   wrappers_fixed_scale.2.1 epStub32 epStub32Elsewhere slW 2020
     ((-122.27 : ℚ), (37.80 : ℚ)) 32 (fun _ => rfl),
   wrappers_fixed_scale.2.2 epStub32 epStub32Elsewhere slW
     ((-122.27 : ℚ), (37.80 : ℚ)) 32 (fun _ => rfl)⟩
